import Mathlib

/-!
# Verification of the cvms vote-indexer repository layer

Shallow embedding of `internal/packages/consensus/voteindexer/repository/repository.go`:
the vote event writer (`InsertValidatorVoteList`), the sliding-window aggregator
(`SelectRecentMissValidatorVoteList`) and the retention pruner
(`DeleteOldValidatorVoteList`), over an explicit relational-store state.

The store itself (bun / PostgreSQL) is external: single SQL statements are modelled
as atomic state transformations, `RunInTx` as an all-or-nothing transaction that
rolls the state back on any contained failure, exactly the contract the repository
requires from its transactional store.  Environmental statement failures
(timeouts, connection errors) are injected through explicit boolean fault flags.

Heights, timestamps, durations and status codes are `Int` (Go `int64`);
SQL `COUNT` results are `Nat`.
-/

set_option linter.unusedVariables false

namespace VoteIndexer

/-- Row of the `index_pointer` meta table (`idxmodel.IndexPointer`):
`(chain_info_id, index_name) → pointer`. -/
structure IndexPointer where
  chain_info_id : Int
  index_name : String
  pointer : Int
  deriving Repr, DecidableEq

/-- Modelled from the spec: `model.ValidatorVote` (voteindexer model package, not under
src/) — one row per validator-status event:
`{ height, validator_reference, status ∈ {missed=1, committed=2, proposed=3}, timestamp }`,
with the storage-assigned surrogate id kept out of the model (it is excluded from writes). -/
structure ValidatorVote where
  height : Int
  validator_hex_address_id : Int
  status : Int
  timestamp : Int
  deriving Repr, DecidableEq

/-- Row of the external `meta.validator_info` table: `{ id, moniker }`. -/
structure ValidatorInfo where
  id : Int
  moniker : String
  deriving Repr, DecidableEq

/-- The relational store visible to this repository: the pointer table, the
chain-specific vote partitions (keyed by physical partition identifier), and the
externally populated validator metadata table. -/
structure DBState where
  pointers : List IndexPointer
  partitions : List (String × List ValidatorVote)
  validator_info : List ValidatorInfo
  deriving Repr, DecidableEq

/-- Read a partition's rows (a partition absent from the store reads as empty). -/
def getPart : List (String × List ValidatorVote) → String → List ValidatorVote
  | [], _ => []
  | p :: ps, n => if p.1 = n then p.2 else getPart ps n

/-- Replace a partition's rows (appending the partition if absent). -/
def setPart : List (String × List ValidatorVote) → String → List ValidatorVote →
    List (String × List ValidatorVote)
  | [], n, rows => [(n, rows)]
  | p :: ps, n, rows => if p.1 = n then (n, rows) :: ps else p :: setPart ps n rows

/-- `const IndexName = "voteindexer"` (repository.go line 17). -/
def IndexName : String := "voteindexer"

/-- Modelled from the spec: `dbhelper.MakePartitionTableName` (internal/helper/db,
not under src/) — the partition resolver, a deterministic side-effect-free mapping
`(indexName, chainID) → partitionIdentifier`, stable across restarts and
collision-free across chains. -/
def MakePartitionTableName (indexName chainID : String) : String :=
  indexName ++ "_" ++ chainID

/-- The single pointer-update statement issued by `InsertValidatorVoteList`:
`UPDATE index_pointer SET pointer = ? WHERE chain_info_id = ? AND index_name = 'voteindexer'`. -/
def execUpdatePointer (chainInfoID indexPointerHeight : Int) (st : DBState) : DBState :=
  { st with pointers := st.pointers.map (fun p =>
      if p.chain_info_id = chainInfoID ∧ p.index_name = IndexName then
        { p with pointer := indexPointerHeight }
      else p) }

/-- The bulk-insert statement issued inside the transaction: appends the batch to the
chain's partition (Modelled from the spec for the routing part: the statement targets
the vote table and the store routes the rows to the chain's physical partition `part`,
which must already exist; the surrogate id column is excluded, so rows carry exactly
the model's four fields). -/
def execInsertVotes (part : String) (votes : List ValidatorVote) (st : DBState) : DBState :=
  { st with partitions := setPart st.partitions part (getPart st.partitions part ++ votes) }

/-- `repo.RunInTx`: the transactional store's contract — run the body; if it reports
any error the whole transaction is rolled back and the state is exactly the input
state; otherwise the body's final state is committed. -/
def RunInTx (st : DBState) (body : DBState → Except String DBState) :
    Option String × DBState :=
  match body st with
  | .error e => (some e, st)
  | .ok st' => (none, st')

/-- `(repo *VoteIndexerRepository) InsertValidatorVoteList` (repository.go lines 34-89).
Fault flags inject environmental failure of the insert / update statements
(timeout, connection loss); a failed single statement has no effect.
Returns `(error?, resulting store state)`. -/
def InsertValidatorVoteList (failInsert failUpdate : Bool) (part : String)
    (chainInfoID indexPointerHeight : Int) (ValidatorVoteList : List ValidatorVote)
    (st : DBState) : Option String × DBState :=
  -- if there are not any miss validators in this block, just update index pointer
  if ValidatorVoteList.length = 0 then
    if failUpdate then (some "failed to update new index pointer", st)
    else (none, execUpdatePointer chainInfoID indexPointerHeight st)
  else
    -- insert miss validators for this block and update index pointer in one transaction
    RunInTx st (fun tx =>
      if failInsert then .error "failed to insert validator_miss list"
      else
        let tx := execInsertVotes part ValidatorVoteList tx
        if failUpdate then .error "failed to update new index pointer"
        else .ok (execUpdatePointer chainInfoID indexPointerHeight tx))

/-- One result row of the aggregation query (`model.RecentValidatorVote`, scanned from
the SELECT's columns; the `commited` spelling is the query's own alias). -/
structure RecentValidatorVote where
  moniker : String
  max_height : Int
  min_height : Int
  missed : Nat
  commited : Nat
  proposed : Nat
  deriving Repr, DecidableEq

/-- SQL `MAX(height)` over a table: `NULL` (`none`) on an empty table. -/
def sqlMaxHeight : List ValidatorVote → Option Int
  | [] => none
  | r :: rs =>
    match sqlMaxHeight rs with
    | none => some r.height
    | some m => some (max r.height m)

/-- The aggregation query's WHERE clause,
`height > ((SELECT MAX(height) FROM <partition>) - 100)`:
when the subselect is `NULL` the comparison is never true and no row qualifies. -/
def windowRows (rows : List ValidatorVote) : List ValidatorVote :=
  match sqlMaxHeight rows with
  | none => []
  | some m => rows.filter (fun r => decide (m - 100 < r.height))

/-- The query's inner `JOIN meta.validator_info vi ON vidx.validator_hex_address_id = vi.id`
(`id` is the table's key): tags each vote row with its validator's moniker, dropping
rows with no matching validator. -/
def joinMoniker (vinfo : List ValidatorInfo) (rows : List ValidatorVote) :
    List (String × ValidatorVote) :=
  rows.filterMap (fun r =>
    match vinfo.find? (fun v => decide (v.id = r.validator_hex_address_id)) with
    | some v => some (v.moniker, r)
    | none => none)

/-- The distinct group keys of `GROUP BY vi.moniker`. -/
def groupMonikers (prs : List (String × ValidatorVote)) : List String :=
  (prs.map Prod.fst).dedup

/-- SQL `MAX` over a (nonempty) group of heights. -/
def listMax : List Int → Int
  | [] => 0
  | [x] => x
  | x :: xs => max x (listMax xs)

/-- SQL `MIN` over a (nonempty) group of heights. -/
def listMin : List Int → Int
  | [] => 0
  | [x] => x
  | x :: xs => min x (listMin xs)

/-- `COUNT(CASE WHEN status = s THEN 1 END)` over a group of rows. -/
def countStatus (s : Int) (rs : List ValidatorVote) : Nat :=
  (rs.filter (fun r => decide (r.status = s))).length

/-- One output row of `GROUP BY vi.moniker`: the aggregates of the SELECT list over
the group of (joined, window-filtered) rows carrying moniker `m`. -/
def aggregateRow (prs : List (String × ValidatorVote)) (m : String) : RecentValidatorVote :=
  let rs := (prs.filter (fun p => decide (p.1 = m))).map Prod.snd
  { moniker := m
    max_height := listMax (rs.map ValidatorVote.height)
    min_height := listMin (rs.map ValidatorVote.height)
    missed := countStatus 1 rs
    commited := countStatus 2 rs
    proposed := countStatus 3 rs }

/-- `(repo *VoteIndexerRepository) SelectRecentMissValidatorVoteList`
(repository.go lines 91-119): resolves the chain's partition, then evaluates the raw
aggregation query — window filter over the partition, join with `meta.validator_info`,
group by moniker, per-group aggregates. -/
def SelectRecentMissValidatorVoteList (st : DBState) (chainID : String) :
    List RecentValidatorVote :=
  let partitionTableName := MakePartitionTableName IndexName chainID
  let rows := getPart st.partitions partitionTableName
  let prs := joinMoniker st.validator_info (windowRows rows)
  (groupMonikers prs).map (aggregateRow prs)

/-- The rows one `GROUP BY vi.moniker` bucket of the aggregation query ranges over:
the joined, window-filtered rows of the chain's partition carrying moniker `m`. -/
def groupRows (st : DBState) (chainID : String) (m : String) : List ValidatorVote :=
  ((joinMoniker st.validator_info
      (windowRows (getPart st.partitions (MakePartitionTableName IndexName chainID)))).filter
    (fun pr => decide (pr.1 = m))).map Prod.snd

/-- Modelled from the spec: `dbhelper.ParseRetentionPeriod` (internal/helper/db, not
under src/) — parses a compact duration string such as `"24h"` or `"7d"` into a signed
(negative, look-back) duration in seconds, rejecting malformed input with a validation
error (`none`). -/
def ParseRetentionPeriod (retentionPeriod : String) : Option Int :=
  match retentionPeriod.data.getLast? with
  | none => none
  | some u =>
    let digits := retentionPeriod.data.dropLast
    if digits ≠ [] ∧ digits.all Char.isDigit then
      let n : Int := Int.ofNat (digits.foldl (fun acc c => acc * 10 + (c.toNat - 48)) 0)
      match u with
      | 'h' => some (-(n * 3600))
      | 'd' => some (-(n * 86400))
      | _ => none
    else none

/-- `(repo *VoteIndexerRepository) DeleteOldValidatorVoteList` (repository.go lines
121-151): parse the retention period (failing fast with no mutation), compute
`cutoffTime = now + duration`, then delete every partition row with
`timestamp < cutoffTime`, returning the affected row count.
Result: `((deleted rows, unexpected error), resulting store state)`. -/
def DeleteOldValidatorVoteList (st : DBState) (now : Int)
    (chainID retentionPeriod : String) : (Int × Option String) × DBState :=
  match ParseRetentionPeriod retentionPeriod with
  | none => ((0, some "failed to parse retention period"), st)
  | some duration =>
    let cutoffTime := now + duration
    let partitionTableName := MakePartitionTableName IndexName chainID
    let rows := getPart st.partitions partitionTableName
    let kept := rows.filter (fun r => decide (¬ r.timestamp < cutoffTime))
    let rowsAffected : Int := Int.ofNat (rows.filter (fun r => decide (r.timestamp < cutoffTime))).length
    ((rowsAffected, none),
      { st with partitions := setPart st.partitions partitionTableName kept })

/-! ## Helper lemmas -/

lemma getPart_setPart_same (l : List (String × List ValidatorVote)) (n : String)
    (v : List ValidatorVote) : getPart (setPart l n v) n = v := by
  induction l with
  | nil => simp [getPart, setPart]
  | cons p ps ih =>
    by_cases hp : p.1 = n
    · simp [getPart, setPart, hp]
    · simp [getPart, setPart, hp, ih]

lemma setPart_setPart (l : List (String × List ValidatorVote)) (n : String)
    (a b : List ValidatorVote) : setPart (setPart l n a) n b = setPart l n b := by
  induction l with
  | nil => simp [setPart]
  | cons p ps ih =>
    by_cases hp : p.1 = n
    · simp [setPart, hp]
    · simp [setPart, hp, ih]

lemma execUpdatePointer_partitions (c hgt : Int) (st : DBState) :
    (execUpdatePointer c hgt st).partitions = st.partitions := rfl

lemma execInsertVotes_pointers (part : String) (votes : List ValidatorVote) (st : DBState) :
    (execInsertVotes part votes st).pointers = st.pointers := rfl

lemma execUpdatePointer_idem (c hgt : Int) (st : DBState) :
    execUpdatePointer c hgt (execUpdatePointer c hgt st) = execUpdatePointer c hgt st := by
  show DBState.mk _ _ _ = DBState.mk _ _ _
  simp only [execUpdatePointer, List.map_map]
  refine congrArg (fun l => DBState.mk l st.partitions st.validator_info) ?_
  refine List.map_congr_left (fun p _ => ?_)
  by_cases hc : p.chain_info_id = c ∧ p.index_name = IndexName
  · simp [Function.comp, hc]
  · simp [Function.comp, hc]

lemma le_listMax (l : List Int) : ∀ x ∈ l, x ≤ listMax l := by
  induction l with
  | nil => intro x hx; cases hx
  | cons a t ih =>
    intro x hx
    cases t with
    | nil =>
      rw [List.mem_singleton.mp hx]
      exact le_of_eq rfl
    | cons b t' =>
      rcases List.mem_cons.mp hx with h | h
      · rw [h]; exact le_max_left _ _
      · exact le_trans (ih x h) (le_max_right _ _)

lemma listMin_le (l : List Int) : ∀ x ∈ l, listMin l ≤ x := by
  induction l with
  | nil => intro x hx; cases hx
  | cons a t ih =>
    intro x hx
    cases t with
    | nil =>
      rw [List.mem_singleton.mp hx]
      exact le_of_eq rfl
    | cons b t' =>
      rcases List.mem_cons.mp hx with h | h
      · rw [h]; exact min_le_left _ _
      · exact le_trans (min_le_right _ _) (ih x h)

/-! ## Claim theorems -/

/-- C1. For every non-empty vote batch, `InsertValidatorVoteList` performs the bulk
insert of all vote rows and the pointer update to `pointerHeight` as one atomic unit:
if any step fails, neither the vote rows nor the pointer advance persists (the state,
and in particular the pointer, is exactly its prior value); if the call succeeds, both
effects persist — the batch is appended to the chain's partition and every matching
pointer row is set to `pointerHeight`. -/
theorem insertValidatorVoteList_atomic (failInsert failUpdate : Bool) (part : String)
    (chainInfoID indexPointerHeight : Int) (votes : List ValidatorVote) (st : DBState)
    (hne : votes ≠ []) :
    ((InsertValidatorVoteList failInsert failUpdate part chainInfoID indexPointerHeight
        votes st).1.isSome →
      (InsertValidatorVoteList failInsert failUpdate part chainInfoID indexPointerHeight
        votes st).2 = st) ∧
    ((InsertValidatorVoteList failInsert failUpdate part chainInfoID indexPointerHeight
        votes st).1 = none →
      getPart (InsertValidatorVoteList failInsert failUpdate part chainInfoID
          indexPointerHeight votes st).2.partitions part =
        getPart st.partitions part ++ votes ∧
      ∀ (i : Nat) (p : IndexPointer), st.pointers[i]? = some p →
        (InsertValidatorVoteList failInsert failUpdate part chainInfoID indexPointerHeight
            votes st).2.pointers[i]? =
          some (if p.chain_info_id = chainInfoID ∧ p.index_name = IndexName then
            { p with pointer := indexPointerHeight } else p)) := by
  have hlen : votes.length ≠ 0 := fun h => hne (List.length_eq_zero.mp h)
  cases failInsert with
  | true =>
    constructor
    · intro _
      simp [InsertValidatorVoteList, hlen, RunInTx]
    · intro habs
      exfalso
      simp [InsertValidatorVoteList, hlen, RunInTx] at habs
  | false =>
    cases failUpdate with
    | true =>
      constructor
      · intro _
        simp [InsertValidatorVoteList, hlen, RunInTx]
      · intro habs
        exfalso
        simp [InsertValidatorVoteList, hlen, RunInTx] at habs
    | false =>
      have hred : InsertValidatorVoteList false false part chainInfoID indexPointerHeight
          votes st =
          (none, execUpdatePointer chainInfoID indexPointerHeight
            (execInsertVotes part votes st)) := by
        simp [InsertValidatorVoteList, hlen, RunInTx]
      constructor
      · intro habs
        exfalso
        rw [hred] at habs
        simp at habs
      · intro _
        constructor
        · rw [hred, execUpdatePointer_partitions]
          simp only [execInsertVotes]
          exact getPart_setPart_same _ _ _
        · intro i p hp
          rw [hred]
          simp only [execUpdatePointer, execInsertVotes]
          rw [List.getElem?_map]
          show Option.map _ st.pointers[i]? = _
          rw [hp]
          rfl

/-- C1 witness: a concrete one-row batch; a failed insert leaves the store untouched,
a successful call appends the row and advances the pointer. -/
theorem insertValidatorVoteList_atomic_witness :
    ([(⟨12, 7, 2, 120⟩ : ValidatorVote)] ≠ []) ∧
    ((InsertValidatorVoteList true false "voteindexer_testchain" 1 12 [⟨12, 7, 2, 120⟩]
        ⟨[⟨1, "voteindexer", 11⟩], [("voteindexer_testchain", [⟨11, 7, 1, 110⟩])],
          [⟨7, "val1"⟩]⟩).2 =
      ⟨[⟨1, "voteindexer", 11⟩], [("voteindexer_testchain", [⟨11, 7, 1, 110⟩])],
        [⟨7, "val1"⟩]⟩) ∧
    (getPart (InsertValidatorVoteList false false "voteindexer_testchain" 1 12
        [⟨12, 7, 2, 120⟩]
        ⟨[⟨1, "voteindexer", 11⟩], [("voteindexer_testchain", [⟨11, 7, 1, 110⟩])],
          [⟨7, "val1"⟩]⟩).2.partitions "voteindexer_testchain" =
      [⟨11, 7, 1, 110⟩, ⟨12, 7, 2, 120⟩]) ∧
    ((InsertValidatorVoteList false false "voteindexer_testchain" 1 12 [⟨12, 7, 2, 120⟩]
        ⟨[⟨1, "voteindexer", 11⟩], [("voteindexer_testchain", [⟨11, 7, 1, 110⟩])],
          [⟨7, "val1"⟩]⟩).2.pointers[0]? = some ⟨1, "voteindexer", 12⟩) := by
  refine ⟨by decide, ?_, ?_, ?_⟩
  · exact (insertValidatorVoteList_atomic true false "voteindexer_testchain" 1 12
      [⟨12, 7, 2, 120⟩] _ (by decide)).1 (by decide)
  · exact (insertValidatorVoteList_atomic false false "voteindexer_testchain" 1 12
      [⟨12, 7, 2, 120⟩] _ (by decide)).2 (by decide) |>.1
  · have := (insertValidatorVoteList_atomic false false "voteindexer_testchain" 1 12
      [⟨12, 7, 2, 120⟩]
      ⟨[⟨1, "voteindexer", 11⟩], [("voteindexer_testchain", [⟨11, 7, 1, 110⟩])],
        [⟨7, "val1"⟩]⟩ (by decide)).2 (by decide) |>.2 0 ⟨1, "voteindexer", 11⟩ (by decide)
    rw [this]
    decide

/-- C2. A call of `InsertValidatorVoteList` with an empty votes list performs only the
single pointer update — every pointer row matching `(chainInfoID, IndexName)` is set to
`pointerHeight`, every other pointer row is untouched — and inserts no vote rows
(partitions are unchanged, as is the validator table); invoking this empty-vote path a
second time with the same height changes nothing further. -/
theorem insertValidatorVoteList_emptyBatch (failInsert : Bool) (part : String)
    (chainInfoID indexPointerHeight : Int) (st : DBState) :
    ((InsertValidatorVoteList failInsert false part chainInfoID indexPointerHeight []
        st).1 = none) ∧
    ((InsertValidatorVoteList failInsert false part chainInfoID indexPointerHeight []
        st).2.partitions = st.partitions) ∧
    ((InsertValidatorVoteList failInsert false part chainInfoID indexPointerHeight []
        st).2.validator_info = st.validator_info) ∧
    (∀ (i : Nat) (p : IndexPointer), st.pointers[i]? = some p →
      (InsertValidatorVoteList failInsert false part chainInfoID indexPointerHeight []
          st).2.pointers[i]? =
        some (if p.chain_info_id = chainInfoID ∧ p.index_name = IndexName then
          { p with pointer := indexPointerHeight } else p)) ∧
    ((InsertValidatorVoteList failInsert false part chainInfoID indexPointerHeight []
        (InsertValidatorVoteList failInsert false part chainInfoID indexPointerHeight []
          st).2).2 =
      (InsertValidatorVoteList failInsert false part chainInfoID indexPointerHeight []
        st).2) := by
  have hred : InsertValidatorVoteList failInsert false part chainInfoID indexPointerHeight
      [] st = (none, execUpdatePointer chainInfoID indexPointerHeight st) := by
    simp [InsertValidatorVoteList]
  refine ⟨by rw [hred], by rw [hred, execUpdatePointer_partitions],
    by rw [hred]; rfl, ?_, ?_⟩
  · intro i p hp
    rw [hred]
    simp only [execUpdatePointer]
    rw [List.getElem?_map]
    show Option.map _ st.pointers[i]? = _
    rw [hp]
    rfl
  · rw [hred]
    have hred2 : InsertValidatorVoteList failInsert false part chainInfoID
        indexPointerHeight [] (execUpdatePointer chainInfoID indexPointerHeight st) =
        (none, execUpdatePointer chainInfoID indexPointerHeight
          (execUpdatePointer chainInfoID indexPointerHeight st)) := by
      simp [InsertValidatorVoteList]
    rw [hred2]
    exact execUpdatePointer_idem _ _ _

/-- C2 witness: an empty batch at height 7 against a store with one matching pointer
row updates only that pointer, and repeating the call changes nothing. -/
theorem insertValidatorVoteList_emptyBatch_witness :
    ((InsertValidatorVoteList false false "voteindexer_testchain" 1 7 []
        ⟨[⟨1, "voteindexer", 5⟩], [("voteindexer_testchain", [])], [⟨7, "val1"⟩]⟩).1 =
      none) ∧
    ((InsertValidatorVoteList false false "voteindexer_testchain" 1 7 []
        ⟨[⟨1, "voteindexer", 5⟩], [("voteindexer_testchain", [])], [⟨7, "val1"⟩]⟩).2.partitions =
      [("voteindexer_testchain", [])]) ∧
    ((InsertValidatorVoteList false false "voteindexer_testchain" 1 7 []
        ⟨[⟨1, "voteindexer", 5⟩], [("voteindexer_testchain", [])], [⟨7, "val1"⟩]⟩).2.pointers[0]? =
      some ⟨1, "voteindexer", 7⟩) ∧
    ((InsertValidatorVoteList false false "voteindexer_testchain" 1 7 []
        (InsertValidatorVoteList false false "voteindexer_testchain" 1 7 []
          ⟨[⟨1, "voteindexer", 5⟩], [("voteindexer_testchain", [])], [⟨7, "val1"⟩]⟩).2).2 =
      (InsertValidatorVoteList false false "voteindexer_testchain" 1 7 []
        ⟨[⟨1, "voteindexer", 5⟩], [("voteindexer_testchain", [])], [⟨7, "val1"⟩]⟩).2) := by
  have h := insertValidatorVoteList_emptyBatch false "voteindexer_testchain" 1 7
    ⟨[⟨1, "voteindexer", 5⟩], [("voteindexer_testchain", [])], [⟨7, "val1"⟩]⟩
  refine ⟨h.1, h.2.1, ?_, h.2.2.2.2⟩
  have := h.2.2.2.1 0 ⟨1, "voteindexer", 5⟩ (by decide)
  rw [this]
  decide

/-- C7. When zero pointer rows match `(chain_info_id, index_name)` — the pointer row is
not provisioned — the empty-batch pointer update of `InsertValidatorVoteList` reports
success and leaves the store entirely unchanged: a silent no-op, not an error. -/
theorem pointerUpdate_zeroRows_silentNoop (failInsert : Bool) (part : String)
    (chainInfoID indexPointerHeight : Int) (st : DBState)
    (hnone : ∀ p ∈ st.pointers,
      ¬(p.chain_info_id = chainInfoID ∧ p.index_name = IndexName)) :
    InsertValidatorVoteList failInsert false part chainInfoID indexPointerHeight [] st =
      (none, st) := by
  have hmap : st.pointers.map (fun p =>
      if p.chain_info_id = chainInfoID ∧ p.index_name = IndexName then
        { p with pointer := indexPointerHeight } else p) = st.pointers := by
    have h1 : st.pointers.map (fun p =>
        if p.chain_info_id = chainInfoID ∧ p.index_name = IndexName then
          { p with pointer := indexPointerHeight } else p) = st.pointers.map id :=
      List.map_congr_left (fun p hp => if_neg (hnone p hp))
    rw [h1, List.map_id]
  simp only [InsertValidatorVoteList, List.length_nil, if_pos rfl, Bool.false_eq_true,
    if_false, execUpdatePointer, hmap, if_true]

/-- C7 witness: a store whose only pointer row belongs to a different index; the update
succeeds and the store is unchanged. -/
theorem pointerUpdate_zeroRows_silentNoop_witness :
    (∀ p ∈ ([⟨1, "otherindexer", 5⟩] : List IndexPointer),
      ¬(p.chain_info_id = 1 ∧ p.index_name = IndexName)) ∧
    InsertValidatorVoteList false false "voteindexer_testchain" 1 9 []
        ⟨[⟨1, "otherindexer", 5⟩], [], []⟩ =
      (none, ⟨[⟨1, "otherindexer", 5⟩], [], []⟩) :=
  ⟨by decide, pointerUpdate_zeroRows_silentNoop false "voteindexer_testchain" 1 9
    ⟨[⟨1, "otherindexer", 5⟩], [], []⟩ (by decide)⟩

/-- C10. Every pointer update issued by `InsertValidatorVoteList` — on the empty-batch
path and on the transactional path, whatever the fault outcome — filters on the fixed
index name `"voteindexer"` and on `chain_info_id`: a pointer row of another index name,
or of another chain, is left exactly in place. -/
theorem pointerUpdate_frame (failInsert failUpdate : Bool) (part : String)
    (chainInfoID indexPointerHeight : Int) (votes : List ValidatorVote) (st : DBState)
    (i : Nat) (p : IndexPointer) (hp : st.pointers[i]? = some p)
    (hother : p.index_name ≠ IndexName ∨ p.chain_info_id ≠ chainInfoID) :
    (InsertValidatorVoteList failInsert failUpdate part chainInfoID indexPointerHeight
        votes st).2.pointers[i]? = some p := by
  have hcond : ¬(p.chain_info_id = chainInfoID ∧ p.index_name = IndexName) := by
    rintro ⟨h1, h2⟩
    rcases hother with h | h
    · exact h h2
    · exact h h1
  have hupd : ∀ tx : DBState, tx.pointers = st.pointers →
      (execUpdatePointer chainInfoID indexPointerHeight tx).pointers[i]? = some p := by
    intro tx htx
    simp only [execUpdatePointer, htx]
    rw [List.getElem?_map]
    show Option.map _ st.pointers[i]? = _
    rw [hp]
    simp [hcond]
  by_cases hlen : votes.length = 0
  · cases failUpdate with
    | true => simp only [InsertValidatorVoteList, hlen, if_pos rfl, if_true]; exact hp
    | false =>
      simp only [InsertValidatorVoteList, hlen, if_pos rfl, Bool.false_eq_true, if_false]
      exact hupd st rfl
  · cases failInsert with
    | true => simp [InsertValidatorVoteList, hlen, RunInTx]; exact hp
    | false =>
      cases failUpdate with
      | true => simp [InsertValidatorVoteList, hlen, RunInTx]; exact hp
      | false =>
        have hred : InsertValidatorVoteList false false part chainInfoID
            indexPointerHeight votes st =
            (none, execUpdatePointer chainInfoID indexPointerHeight
              (execInsertVotes part votes st)) := by
          simp [InsertValidatorVoteList, hlen, RunInTx]
        rw [hred]
        exact hupd _ rfl

/-- C10 witness: a transactional call for chain 1 leaves both a foreign-index pointer
row and another chain's pointer row exactly in place. -/
theorem pointerUpdate_frame_witness :
    (([⟨1, "otherindexer", 5⟩, ⟨2, "voteindexer", 8⟩] :
        List IndexPointer)[0]? = some ⟨1, "otherindexer", 5⟩) ∧
    ((⟨1, "otherindexer", 5⟩ : IndexPointer).index_name ≠ IndexName ∨
      (⟨1, "otherindexer", 5⟩ : IndexPointer).chain_info_id ≠ 1) ∧
    ((InsertValidatorVoteList false false "voteindexer_testchain" 1 12 [⟨12, 7, 2, 120⟩]
        ⟨[⟨1, "otherindexer", 5⟩, ⟨2, "voteindexer", 8⟩], [], []⟩).2.pointers[0]? =
      some ⟨1, "otherindexer", 5⟩) ∧
    ((InsertValidatorVoteList false false "voteindexer_testchain" 1 12 [⟨12, 7, 2, 120⟩]
        ⟨[⟨1, "otherindexer", 5⟩, ⟨2, "voteindexer", 8⟩], [], []⟩).2.pointers[1]? =
      some ⟨2, "voteindexer", 8⟩) := by
  refine ⟨by decide, by decide, ?_, ?_⟩
  · exact pointerUpdate_frame false false "voteindexer_testchain" 1 12 [⟨12, 7, 2, 120⟩]
      ⟨[⟨1, "otherindexer", 5⟩, ⟨2, "voteindexer", 8⟩], [], []⟩ 0 ⟨1, "otherindexer", 5⟩
      (by decide) (by decide)
  · exact pointerUpdate_frame false false "voteindexer_testchain" 1 12 [⟨12, 7, 2, 120⟩]
      ⟨[⟨1, "otherindexer", 5⟩, ⟨2, "voteindexer", 8⟩], [], []⟩ 1 ⟨2, "voteindexer", 8⟩
      (by decide) (by decide)

/-- C4. For a chain whose partition contains no rows, the window anchor
`MAX(height)` is `NULL`, no row satisfies the window predicate, and
`SelectRecentMissValidatorVoteList` returns an empty result set (no error arises from
the undefined anchor). -/
theorem selectRecent_emptyPartition (st : DBState) (chainID : String)
    (hempty : getPart st.partitions (MakePartitionTableName IndexName chainID) = []) :
    SelectRecentMissValidatorVoteList st chainID = [] := by
  simp only [SelectRecentMissValidatorVoteList, hempty]
  rfl

/-- C4 witness: a store holding an empty partition for chain `"testchain"` yields an
empty aggregation. -/
theorem selectRecent_emptyPartition_witness :
    (getPart ([("voteindexer_testchain", [])] : List (String × List ValidatorVote))
        (MakePartitionTableName IndexName "testchain") = []) ∧
    SelectRecentMissValidatorVoteList
        ⟨[⟨1, "voteindexer", 5⟩], [("voteindexer_testchain", [])], [⟨7, "val1"⟩]⟩
        "testchain" = [] :=
  ⟨by decide, selectRecent_emptyPartition
    ⟨[⟨1, "voteindexer", 5⟩], [("voteindexer_testchain", [])], [⟨7, "val1"⟩]⟩
    "testchain" (by decide)⟩

/-- C6. For a malformed retention-period string, `DeleteOldValidatorVoteList` fails
with the parser's validation error before any storage mutation: the reported
deleted-row count is 0, an error is returned, and the store is exactly unchanged. -/
theorem deleteOld_malformed_noop (st : DBState) (now : Int)
    (chainID retentionPeriod : String)
    (hbad : ParseRetentionPeriod retentionPeriod = none) :
    DeleteOldValidatorVoteList st now chainID retentionPeriod =
      ((0, some "failed to parse retention period"), st) := by
  simp only [DeleteOldValidatorVoteList, hbad]

/-- C6 witness: the unparsable spec `"xyz"` is rejected with no effect on a populated
store. -/
theorem deleteOld_malformed_noop_witness :
    (ParseRetentionPeriod "xyz" = none) ∧
    DeleteOldValidatorVoteList
        ⟨[⟨1, "voteindexer", 5⟩], [("voteindexer_testchain", [⟨10, 7, 1, 100⟩])],
          [⟨7, "val1"⟩]⟩ 1000 "testchain" "xyz" =
      ((0, some "failed to parse retention period"),
        ⟨[⟨1, "voteindexer", 5⟩], [("voteindexer_testchain", [⟨10, 7, 1, 100⟩])],
          [⟨7, "val1"⟩]⟩) :=
  ⟨by decide, deleteOld_malformed_noop
    ⟨[⟨1, "voteindexer", 5⟩], [("voteindexer_testchain", [⟨10, 7, 1, 100⟩])],
      [⟨7, "val1"⟩]⟩ 1000 "testchain" "xyz" (by decide)⟩

/-- C5. For a parsable retention spec with `cutoff = now + duration`:
`DeleteOldValidatorVoteList` reports no error and a count equal to the number of
partition rows with `timestamp < cutoff`; the surviving partition is exactly the rows
with `timestamp ≥ cutoff` (in particular any row at exactly the cutoff is retained and
no remaining row is older than the cutoff); and a second run with the same
non-advancing cutoff deletes zero additional rows and leaves the store unchanged. -/
theorem deleteOld_retention (st : DBState) (now : Int)
    (chainID retentionPeriod : String) (duration : Int)
    (hparse : ParseRetentionPeriod retentionPeriod = some duration) :
    ((DeleteOldValidatorVoteList st now chainID retentionPeriod).1 =
      (Int.ofNat ((getPart st.partitions (MakePartitionTableName IndexName chainID)).filter
        (fun r => decide (r.timestamp < now + duration))).length, none)) ∧
    (getPart (DeleteOldValidatorVoteList st now chainID retentionPeriod).2.partitions
        (MakePartitionTableName IndexName chainID) =
      (getPart st.partitions (MakePartitionTableName IndexName chainID)).filter
        (fun r => decide (¬ r.timestamp < now + duration))) ∧
    (∀ r ∈ getPart (DeleteOldValidatorVoteList st now chainID retentionPeriod).2.partitions
        (MakePartitionTableName IndexName chainID), ¬ r.timestamp < now + duration) ∧
    (∀ r ∈ getPart st.partitions (MakePartitionTableName IndexName chainID),
      ¬ r.timestamp < now + duration →
      r ∈ getPart (DeleteOldValidatorVoteList st now chainID retentionPeriod).2.partitions
        (MakePartitionTableName IndexName chainID)) ∧
    ((DeleteOldValidatorVoteList
        (DeleteOldValidatorVoteList st now chainID retentionPeriod).2
        now chainID retentionPeriod).1 = (0, none)) ∧
    ((DeleteOldValidatorVoteList
        (DeleteOldValidatorVoteList st now chainID retentionPeriod).2
        now chainID retentionPeriod).2 =
      (DeleteOldValidatorVoteList st now chainID retentionPeriod).2) := by
  have hred : DeleteOldValidatorVoteList st now chainID retentionPeriod =
      ((Int.ofNat ((getPart st.partitions (MakePartitionTableName IndexName chainID)).filter
          (fun r => decide (r.timestamp < now + duration))).length, none),
        ⟨st.pointers,
          setPart st.partitions (MakePartitionTableName IndexName chainID)
            ((getPart st.partitions (MakePartitionTableName IndexName chainID)).filter
              (fun r => decide (¬ r.timestamp < now + duration))),
          st.validator_info⟩) := by
    simp only [DeleteOldValidatorVoteList, hparse]
  have hkept : getPart (DeleteOldValidatorVoteList st now chainID retentionPeriod).2.partitions
      (MakePartitionTableName IndexName chainID) =
      (getPart st.partitions (MakePartitionTableName IndexName chainID)).filter
        (fun r => decide (¬ r.timestamp < now + duration)) := by
    rw [hred]
    exact getPart_setPart_same _ _ _
  have hkeptMem : ∀ r ∈ getPart (DeleteOldValidatorVoteList st now chainID
      retentionPeriod).2.partitions (MakePartitionTableName IndexName chainID),
      ¬ r.timestamp < now + duration := by
    intro r hr
    rw [hkept] at hr
    have := (List.mem_filter.mp hr).2
    simpa using this
  have hfilter2 : ((getPart st.partitions (MakePartitionTableName IndexName chainID)).filter
      (fun r => decide (¬ r.timestamp < now + duration))).filter
      (fun r => decide (r.timestamp < now + duration)) = [] := by
    rw [List.filter_filter]
    have : ∀ r ∈ getPart st.partitions (MakePartitionTableName IndexName chainID),
        (decide (r.timestamp < now + duration) &&
          decide (¬ r.timestamp < now + duration)) = false := by
      intro r _
      by_cases h : r.timestamp < now + duration <;> simp [h]
    calc _ = (getPart st.partitions (MakePartitionTableName IndexName chainID)).filter
          (fun _ => false) := List.filter_congr this
      _ = [] := List.filter_false _
  have hfilter3 : ((getPart st.partitions (MakePartitionTableName IndexName chainID)).filter
      (fun r => decide (¬ r.timestamp < now + duration))).filter
      (fun r => decide (¬ r.timestamp < now + duration)) =
      (getPart st.partitions (MakePartitionTableName IndexName chainID)).filter
        (fun r => decide (¬ r.timestamp < now + duration)) := by
    rw [List.filter_filter]
    exact List.filter_congr (fun r _ => Bool.and_self _)
  have hred2 : DeleteOldValidatorVoteList
      (DeleteOldValidatorVoteList st now chainID retentionPeriod).2
      now chainID retentionPeriod =
      ((Int.ofNat ((getPart (DeleteOldValidatorVoteList st now chainID
          retentionPeriod).2.partitions (MakePartitionTableName IndexName chainID)).filter
          (fun r => decide (r.timestamp < now + duration))).length, none),
        ⟨(DeleteOldValidatorVoteList st now chainID retentionPeriod).2.pointers,
          setPart
            (DeleteOldValidatorVoteList st now chainID retentionPeriod).2.partitions
            (MakePartitionTableName IndexName chainID)
            ((getPart (DeleteOldValidatorVoteList st now chainID
              retentionPeriod).2.partitions (MakePartitionTableName IndexName chainID)).filter
              (fun r => decide (¬ r.timestamp < now + duration))),
          (DeleteOldValidatorVoteList st now chainID retentionPeriod).2.validator_info⟩) := by
    simp only [DeleteOldValidatorVoteList, hparse]
  refine ⟨by rw [hred], hkept, hkeptMem, ?_, ?_, ?_⟩
  · intro r hr hts
    rw [hkept]
    exact List.mem_filter.mpr ⟨hr, by simpa using hts⟩
  · rw [hred2, hkept, hfilter2]
    rfl
  · rw [hred2, hkept, hfilter3]
    rw [hred]
    simp only [setPart_setPart]
  -- the final goal closes by eta after rewriting the nested setPart

/-- C5 witness: retention `"1h"` at `now = 4000` (cutoff 400) over rows with
timestamps 100 and 400: the older row is deleted, the row exactly at the cutoff is
retained, the count is 1, and a repeated run deletes nothing. -/
theorem deleteOld_retention_witness :
    (ParseRetentionPeriod "1h" = some (-3600)) ∧
    ((DeleteOldValidatorVoteList
        ⟨[⟨1, "voteindexer", 5⟩], [("voteindexer_testchain",
          [⟨10, 7, 1, 100⟩, ⟨11, 7, 1, 400⟩])], [⟨7, "val1"⟩]⟩
        4000 "testchain" "1h").1 = (1, none)) ∧
    (getPart (DeleteOldValidatorVoteList
        ⟨[⟨1, "voteindexer", 5⟩], [("voteindexer_testchain",
          [⟨10, 7, 1, 100⟩, ⟨11, 7, 1, 400⟩])], [⟨7, "val1"⟩]⟩
        4000 "testchain" "1h").2.partitions "voteindexer_testchain" =
      [⟨11, 7, 1, 400⟩]) ∧
    ((DeleteOldValidatorVoteList
        (DeleteOldValidatorVoteList
          ⟨[⟨1, "voteindexer", 5⟩], [("voteindexer_testchain",
            [⟨10, 7, 1, 100⟩, ⟨11, 7, 1, 400⟩])], [⟨7, "val1"⟩]⟩
          4000 "testchain" "1h").2
        4000 "testchain" "1h").1 = (0, none)) := by
  have h := deleteOld_retention
    ⟨[⟨1, "voteindexer", 5⟩], [("voteindexer_testchain",
      [⟨10, 7, 1, 100⟩, ⟨11, 7, 1, 400⟩])], [⟨7, "val1"⟩]⟩
    4000 "testchain" "1h" (-3600) (by decide)
  refine ⟨by decide, ?_, ?_, h.2.2.2.2.1⟩
  · rw [h.1]; decide
  · have := h.2.1
    rw [show MakePartitionTableName IndexName "testchain" = "voteindexer_testchain"
      from rfl] at this
    rw [this]
    decide

/-- C8. The partition resolution shared by the aggregator and the pruner is a pure
function of `(indexName, chainID)`: equal inputs always resolve to the identical
partition identifier, and for a fixed index name distinct chain identifiers resolve to
distinct partition identifiers. -/
theorem makePartitionTableName_stable_injective :
    (∀ indexName chainID : String,
      MakePartitionTableName indexName chainID = MakePartitionTableName indexName chainID) ∧
    (∀ (indexName c₁ c₂ : String), c₁ ≠ c₂ →
      MakePartitionTableName indexName c₁ ≠ MakePartitionTableName indexName c₂) := by
  refine ⟨fun _ _ => rfl, fun indexName c₁ c₂ hne heq => hne ?_⟩
  have hdata : (indexName ++ "_").data ++ c₁.data = (indexName ++ "_").data ++ c₂.data := by
    have h1 := congrArg String.data heq
    simpa [MakePartitionTableName, String.data_append, List.append_assoc] using h1
  exact String.ext (List.append_cancel_left hdata)

/-- C8 witness: two concrete chains resolve to distinct partitions, and resolution of
a fixed chain is stable. -/
theorem makePartitionTableName_stable_injective_witness :
    (("chain-a" : String) ≠ "chain-b") ∧
    MakePartitionTableName "voteindexer" "chain-a" ≠
      MakePartitionTableName "voteindexer" "chain-b" :=
  ⟨by decide, makePartitionTableName_stable_injective.2 "voteindexer" "chain-a" "chain-b"
    (by decide)⟩

/-- C3. With `M` the maximum height present in a (non-empty) partition,
`SelectRecentMissValidatorVoteList` aggregates exactly over the partition rows with
`height > M − 100`: the query equals the grouped aggregation of the join restricted to
that strict window, a row at exactly height `M − 100` is excluded from the window, and
a row at height `M − 99` is included. -/
theorem selectRecent_window_strict (st : DBState) (chainID : String) (M : Int)
    (hM : sqlMaxHeight (getPart st.partitions (MakePartitionTableName IndexName chainID)) =
      some M) :
    (SelectRecentMissValidatorVoteList st chainID =
      (groupMonikers (joinMoniker st.validator_info
        ((getPart st.partitions (MakePartitionTableName IndexName chainID)).filter
          (fun r => decide (M - 100 < r.height))))).map
        (aggregateRow (joinMoniker st.validator_info
          ((getPart st.partitions (MakePartitionTableName IndexName chainID)).filter
            (fun r => decide (M - 100 < r.height)))))) ∧
    (∀ r ∈ getPart st.partitions (MakePartitionTableName IndexName chainID),
      r.height = M - 100 →
      r ∉ (getPart st.partitions (MakePartitionTableName IndexName chainID)).filter
        (fun r => decide (M - 100 < r.height))) ∧
    (∀ r ∈ getPart st.partitions (MakePartitionTableName IndexName chainID),
      r.height = M - 99 →
      r ∈ (getPart st.partitions (MakePartitionTableName IndexName chainID)).filter
        (fun r => decide (M - 100 < r.height))) := by
  have hwin : windowRows (getPart st.partitions (MakePartitionTableName IndexName chainID)) =
      (getPart st.partitions (MakePartitionTableName IndexName chainID)).filter
        (fun r => decide (M - 100 < r.height)) := by
    simp only [windowRows, hM]
  refine ⟨?_, ?_, ?_⟩
  · simp only [SelectRecentMissValidatorVoteList, hwin]
  · intro r hr hh habs
    have hlt := (List.mem_filter.mp habs).2
    rw [decide_eq_true_eq] at hlt
    omega
  · intro r hr hh
    refine List.mem_filter.mpr ⟨hr, ?_⟩
    rw [decide_eq_true_eq]
    omega

/-- C3 witness: partition with max height 100 holding rows at heights 100, 0 (= M−100)
and 1 (= M−99): the row at 0 falls outside the window, the row at 1 inside, and the
aggregation counts only heights 100 and 1. -/
theorem selectRecent_window_strict_witness :
    (sqlMaxHeight (getPart
      ([("voteindexer_testchain", [⟨100, 7, 1, 1000⟩, ⟨0, 7, 1, 10⟩, ⟨1, 7, 2, 20⟩])] :
        List (String × List ValidatorVote))
      (MakePartitionTableName IndexName "testchain")) = some 100) ∧
    (SelectRecentMissValidatorVoteList
        ⟨[⟨1, "voteindexer", 100⟩],
          [("voteindexer_testchain", [⟨100, 7, 1, 1000⟩, ⟨0, 7, 1, 10⟩, ⟨1, 7, 2, 20⟩])],
          [⟨7, "val1"⟩]⟩ "testchain" =
      [⟨"val1", 100, 1, 1, 1, 0⟩]) ∧
    ((⟨0, 7, 1, 10⟩ : ValidatorVote) ∉
      ([⟨100, 7, 1, 1000⟩, ⟨0, 7, 1, 10⟩, ⟨1, 7, 2, 20⟩] : List ValidatorVote).filter
        (fun r => decide ((100 : Int) - 100 < r.height))) ∧
    ((⟨1, 7, 2, 20⟩ : ValidatorVote) ∈
      ([⟨100, 7, 1, 1000⟩, ⟨0, 7, 1, 10⟩, ⟨1, 7, 2, 20⟩] : List ValidatorVote).filter
        (fun r => decide ((100 : Int) - 100 < r.height))) := by
  have h := selectRecent_window_strict
    ⟨[⟨1, "voteindexer", 100⟩],
      [("voteindexer_testchain", [⟨100, 7, 1, 1000⟩, ⟨0, 7, 1, 10⟩, ⟨1, 7, 2, 20⟩])],
      [⟨7, "val1"⟩]⟩ "testchain" 100 (by decide)
  refine ⟨by decide, ?_, ?_, ?_⟩
  · rw [h.1]
    decide
  · exact h.2.1 ⟨0, 7, 1, 10⟩ (by decide) (by decide)
  · exact h.2.2 ⟨1, 7, 2, 20⟩ (by decide) (by decide)

/-- C9. Each result row of `SelectRecentMissValidatorVoteList` computes its three
counters from the numeric status encoding over its GROUP BY bucket: `missed` counts
exactly the bucket rows with status 1, `commited` those with status 2, `proposed`
those with status 3; rows of any other status contribute to none of the three counters
(the counts over the bucket equal the counts over only its status-1/2/3 rows), while
every bucket row — whatever its status — still lies between the reported min and max
heights. -/
theorem selectRecent_statusCounts (st : DBState) (chainID : String)
    (rv : RecentValidatorVote)
    (hrv : rv ∈ SelectRecentMissValidatorVoteList st chainID) :
    (rv.missed = countStatus 1 (groupRows st chainID rv.moniker)) ∧
    (rv.commited = countStatus 2 (groupRows st chainID rv.moniker)) ∧
    (rv.proposed = countStatus 3 (groupRows st chainID rv.moniker)) ∧
    (∀ s ∈ ([1, 2, 3] : List Int),
      countStatus s (groupRows st chainID rv.moniker) =
        countStatus s ((groupRows st chainID rv.moniker).filter
          (fun r => decide (r.status = 1) || decide (r.status = 2) ||
            decide (r.status = 3)))) ∧
    (∀ r ∈ groupRows st chainID rv.moniker,
      rv.min_height ≤ r.height ∧ r.height ≤ rv.max_height) := by
  simp only [SelectRecentMissValidatorVoteList] at hrv
  obtain ⟨m, hm, hrveq⟩ := List.mem_map.mp hrv
  subst hrveq
  have hfilter : ∀ s ∈ ([1, 2, 3] : List Int),
      countStatus s (groupRows st chainID m) =
        countStatus s ((groupRows st chainID m).filter
          (fun r => decide (r.status = 1) || decide (r.status = 2) ||
            decide (r.status = 3))) := by
    intro s hs
    unfold countStatus
    rw [List.filter_filter]
    refine congrArg List.length (List.filter_congr ?_).symm
    intro r _
    by_cases h : r.status = s
    · have h1 : decide (r.status = s) = true := by simp [h]
      rcases List.mem_cons.mp hs with h2 | h2
      · subst h2; simp [h1, h, decide_eq_true_eq]
      rcases List.mem_cons.mp h2 with h3 | h3
      · subst h3; simp [h1, h, decide_eq_true_eq]
      rcases List.mem_cons.mp h3 with h4 | h4
      · subst h4; simp [h1, h, decide_eq_true_eq]
      · cases h4
    · simp [h]
  refine ⟨rfl, rfl, rfl, hfilter, ?_⟩
  intro r hr
  constructor
  · exact listMin_le _ r.height (List.mem_map_of_mem ValidatorVote.height hr)
  · exact le_listMax _ r.height (List.mem_map_of_mem ValidatorVote.height hr)

/-- C9 witness: a bucket holding statuses 1, 5 and 2 at heights 10, 11, 12 yields
`missed = 1`, `commited = 1`, `proposed = 0`; the status-5 row is counted nowhere yet
its height 11 lies between the reported min 10 and max 12. -/
theorem selectRecent_statusCounts_witness :
    ((⟨"val1", 12, 10, 1, 1, 0⟩ : RecentValidatorVote) ∈
      SelectRecentMissValidatorVoteList
        ⟨[⟨1, "voteindexer", 12⟩],
          [("voteindexer_testchain", [⟨10, 7, 1, 100⟩, ⟨11, 7, 5, 110⟩, ⟨12, 7, 2, 120⟩])],
          [⟨7, "val1"⟩]⟩ "testchain") ∧
    ((⟨"val1", 12, 10, 1, 1, 0⟩ : RecentValidatorVote).missed =
      countStatus 1 (groupRows
        ⟨[⟨1, "voteindexer", 12⟩],
          [("voteindexer_testchain", [⟨10, 7, 1, 100⟩, ⟨11, 7, 5, 110⟩, ⟨12, 7, 2, 120⟩])],
          [⟨7, "val1"⟩]⟩ "testchain" "val1")) ∧
    ((⟨11, 7, 5, 110⟩ : ValidatorVote) ∈ groupRows
        ⟨[⟨1, "voteindexer", 12⟩],
          [("voteindexer_testchain", [⟨10, 7, 1, 100⟩, ⟨11, 7, 5, 110⟩, ⟨12, 7, 2, 120⟩])],
          [⟨7, "val1"⟩]⟩ "testchain" "val1") ∧
    ((⟨"val1", 12, 10, 1, 1, 0⟩ : RecentValidatorVote).min_height ≤
        (⟨11, 7, 5, 110⟩ : ValidatorVote).height ∧
      (⟨11, 7, 5, 110⟩ : ValidatorVote).height ≤
        (⟨"val1", 12, 10, 1, 1, 0⟩ : RecentValidatorVote).max_height) := by
  have h := selectRecent_statusCounts
    ⟨[⟨1, "voteindexer", 12⟩],
      [("voteindexer_testchain", [⟨10, 7, 1, 100⟩, ⟨11, 7, 5, 110⟩, ⟨12, 7, 2, 120⟩])],
      [⟨7, "val1"⟩]⟩ "testchain" ⟨"val1", 12, 10, 1, 1, 0⟩ (by decide)
  exact ⟨by decide, h.1, by decide, h.2.2.2.2 ⟨11, 7, 5, 110⟩ (by decide)⟩

end VoteIndexer
